import Mathlib

/-!
Verification of the PRISM speaker-recognition protocol package
(`Prism/__init__.py`): key-file loading and merging (`read_keys`),
training-pool filtering (`SRE10._get_trn_keys`), partition iteration
(`trn_iter`, `dev_*_iter`, `tst_*_iter`), trial-matrix loading
(`tst_keys`), and the `Debug` protocol variant.

The Python code is embedded shallowly: pandas DataFrames become lists of
records, file reads become explicit list parameters (the data files are
external inputs), and Python exceptions (`KeyError` from the channel
dictionary, `KeyError` from `.loc`, `ValueError` from a length-mismatched
column assignment, `AttributeError` from calling `.shape` on `None`)
become an explicit error type threaded through `Except`.
-/

namespace Prism

/-- Python exceptions that the loading and iteration code can raise. -/
inductive PrismError where
  /-- `KeyError` from the channel-translation dictionary. -/
  | unknownChannelCode (code : String)
  /-- `KeyError` from `keys_.loc[unique_name]`. -/
  | unknownIdentifier (name : String)
  /-- `ValueError` from assigning a column whose length mismatches the frame. -/
  | lengthMismatch
  /-- `AttributeError` from using `None` where a DataFrame is expected. -/
  | attributeError
deriving DecidableEq, Repr

/-- Raw key-file record: the sixteen whitespace-delimited fields of one
line of a `KEYS/{db}.key` file, in the order of the source's `FIELDS`
list.  `channel` is still the raw one-letter code at this stage. -/
structure Row where
  unique_name : String
  database : String
  target : String
  uri : String
  channel : String
  SESSION_ID : String
  gender : String
  YEAR_OF_BIRTH : Int
  YEAR_OF_RECORDING : Int
  AGE : Int
  SPEECH_TYPE : String
  CHANNEL_TYPE : String
  NOMINAL_LENGTH : Int
  language : String
  NATIVE_LANGUAGE : String
  VOCAL_EFFORT : String
deriving DecidableEq, Repr, Inhabited

/-- Record of the merged key table after `read_keys`: identical to `Row`
except that `channel` has been translated to a number.  `unique_name`
doubles as the table index (`keys.set_index('unique_name')`). -/
structure KeyRow where
  unique_name : String
  database : String
  target : String
  uri : String
  channel : Nat
  SESSION_ID : String
  gender : String
  YEAR_OF_BIRTH : Int
  YEAR_OF_RECORDING : Int
  AGE : Int
  SPEECH_TYPE : String
  CHANNEL_TYPE : String
  NOMINAL_LENGTH : Int
  language : String
  NATIVE_LANGUAGE : String
  VOCAL_EFFORT : String
deriving DecidableEq, Repr, Inhabited

/-- Channel codes accepted by the translation dictionary `{'a': 1, 'b': 2, 'x': 1}`. -/
def channelOk (c : String) : Bool :=
  c = "a" || c = "b" || c = "x"

/-- The dictionary lookup `{'a': 1, 'b': 2, 'x': 1}[channel]`: raises
`KeyError` (here `unknownChannelCode`) on any other code. -/
def translateChannel (c : String) : Except PrismError Nat :=
  if c = "a" then .ok 1
  else if c = "b" then .ok 2
  else if c = "x" then .ok 1
  else .error (.unknownChannelCode c)

/-- Total version of the channel mapping (junk value 0 outside its domain),
used only to state what `translateChannel` returns on valid codes. -/
def channelNum (c : String) : Nat :=
  if c = "a" then 1 else if c = "b" then 2 else if c = "x" then 1 else 0

/-- Channel translation of one full record (valid codes only). -/
def mkKeyRow (r : Row) : KeyRow :=
  { unique_name := r.unique_name
    database := r.database
    target := r.target
    uri := r.uri
    channel := channelNum r.channel
    SESSION_ID := r.SESSION_ID
    gender := r.gender
    YEAR_OF_BIRTH := r.YEAR_OF_BIRTH
    YEAR_OF_RECORDING := r.YEAR_OF_RECORDING
    AGE := r.AGE
    SPEECH_TYPE := r.SPEECH_TYPE
    CHANNEL_TYPE := r.CHANNEL_TYPE
    NOMINAL_LENGTH := r.NOMINAL_LENGTH
    language := r.language
    NATIVE_LANGUAGE := r.NATIVE_LANGUAGE
    VOCAL_EFFORT := r.VOCAL_EFFORT }

/-- Translate one record, failing like the dictionary lookup does. -/
def translateRow (r : Row) : Except PrismError KeyRow :=
  match translateChannel r.channel with
  | .error e => .error e
  | .ok n =>
      .ok { mkKeyRow r with channel := n }

/-- The column-wise `keys['channel'].apply(func)`: translates every row in
order, raising at the first unmapped code. -/
def applyChannel : List Row → Except PrismError (List KeyRow)
  | [] => .ok []
  | r :: rs =>
      match translateRow r with
      | .error e => .error e
      | .ok kr =>
          match applyChannel rs with
          | .error e => .error e
          | .ok krs => .ok (kr :: krs)

/-- The loop `for database in databases: keys = keys.append(local_keys)`:
concatenation of the per-database key files in the given order. -/
def concatKeys (fileOf : String → List Row) : List String → List Row
  | [] => []
  | d :: ds => fileOf d ++ concatKeys fileOf ds

/-- Worker for `keys[~keys.duplicated()]`: drop every row equal to a row
seen earlier (full-field equality), keeping the first occurrence. -/
def dedupSeen (seen : List Row) : List Row → List Row
  | [] => []
  | r :: rs =>
      if r ∈ seen then dedupSeen seen rs
      else r :: dedupSeen (r :: seen) rs

/-- `keys[~keys.duplicated()]`: full-row deduplication keeping the first
occurrence of each row. -/
def dropDuplicates (l : List Row) : List Row :=
  dedupSeen [] l

/-- `PrismSpeakerRecognitionProtocol.read_keys`: concatenate the key files
of `databases` in order, deduplicate by full-row equality, index by
`unique_name` (kept as a field here), and translate the channel column.
The per-database file contents are the external input `fileOf`. -/
def read_keys (databases : List String) (fileOf : String → List Row) :
    Except PrismError (List KeyRow) :=
  applyChannel (dropDuplicates (concatKeys fileOf databases))

/-- `SRE10._get_trn_keys`: the successive boolean-mask filters applied to
the merged key table, in source order. -/
def SRE10_get_trn_keys (gender : String) (keys0 : List KeyRow) : List KeyRow :=
  let keys1 := keys0.filter (fun r => decide (r.gender = gender))
  let keys2 := keys1.filter (fun r => decide (r.language = "ENG" ∨ r.language = "USE"))
  let keys3 := keys2.filter (fun r => decide (r.NOMINAL_LENGTH > 100))
  let keys4 := keys3.filter (fun r => decide (r.SPEECH_TYPE = "tel"))
  let keys5 := keys4.filter (fun r => decide (r.CHANNEL_TYPE = "phn"))
  let keys6 := keys5.filter (fun r => decide (¬ (r.VOCAL_EFFORT = "high" ∨ r.VOCAL_EFFORT = "low")))
  keys6.filter (fun r => decide (¬ r.database = "MIX10"))

/-- `SRE10._get_dev_keys`: returns the empty list unconditionally. -/
def SRE10_get_dev_keys (_trn_or_tst : String) : List String :=
  []

/-- `SRE10.trn_iter`: yield `(unique_name, row)` for each row of the
filtered training table (the index is the `unique_name` field). -/
def trn_iter (trnKeys : List KeyRow) : List (String × KeyRow) :=
  trnKeys.map (fun r => (r.unique_name, r))

/-- `keys_.loc[unique_name]`: locate the row indexed by `unique_name`
(`none` models the `KeyError` pandas raises when the label is absent). -/
def locate (keys : List KeyRow) (unique_name : String) : Option KeyRow :=
  keys.find? (fun r => r.unique_name = unique_name)

/-- Shared body of `dev_enroll_iter` / `dev_test_iter` / `tst_enroll_iter` /
`tst_test_iter`: for each identifier of the list, look its row up in the
merged key table and yield `(identifier, row)`, raising `KeyError`
(here `unknownIdentifier`) on an absent identifier. -/
def lookup_iter (keys : List KeyRow) : List String →
    Except PrismError (List (String × KeyRow))
  | [] => .ok []
  | n :: ns =>
      match locate keys n with
      | none => .error (.unknownIdentifier n)
      | some r =>
          match lookup_iter keys ns with
          | .error e => .error e
          | .ok l => .ok ((n, r) :: l)

/-- The five `n_items` attributes that `SRE10.__init__` stores on the
iterator methods.  Because the assignments go through `__func__`, these
live on the class-level function objects, shared by every instance of the
class; the record models that class-level store. -/
structure NItems where
  trn : Nat
  devEnroll : Nat
  devTest : Nat
  tstEnroll : Nat
  tstTest : Nat
deriving DecidableEq, Repr

/-- Per-instance state produced by `SRE10.__init__`: the filtered training
table and the four identifier lists. -/
structure SRE10State where
  trn_keys_ : List KeyRow
  dev_enroll_keys_ : List String
  dev_test_keys_ : List String
  tst_enroll_keys_ : List String
  tst_test_keys_ : List String
deriving DecidableEq, Repr

/-- `SRE10.__init__` (after `read_keys`): computes the five partition
backing sequences from the merged key table `keys` and the two evaluation
identifier-list files (external inputs `tstEnrollFile`, `tstTestFile`,
the parsed `.trnids` / `.tstids` files of the requested condition and
gender), and overwrites the class-level `n_items` store with their
lengths.  Returns the new instance and the new class-level store; the
incoming store is entirely overwritten. -/
def SRE10_construct (_store : NItems) (keys : List KeyRow) (gender : String)
    (tstEnrollFile tstTestFile : List String) : SRE10State × NItems :=
  let st : SRE10State :=
    { trn_keys_ := SRE10_get_trn_keys gender keys
      dev_enroll_keys_ := SRE10_get_dev_keys "trn"
      dev_test_keys_ := SRE10_get_dev_keys "tst"
      tst_enroll_keys_ := tstEnrollFile
      tst_test_keys_ := tstTestFile }
  (st,
    { trn := st.trn_keys_.length
      devEnroll := st.dev_enroll_keys_.length
      devTest := st.dev_test_keys_.length
      tstEnroll := st.tst_enroll_keys_.length
      tstTest := st.tst_test_keys_.length })

/-- Reading `inst.trn_iter.n_items` (etc.) through any instance resolves
to the attribute on the class-level function object: it reads the shared
class store, not anything owned by the instance. -/
def observed_n_items (store : NItems) (_inst : SRE10State) : NItems :=
  store

/-- The trial matrix returned by `SRE10.tst_keys`: column labels are the
test identifiers (`names=tst`), the row index is the enrollment identifier
list, cells are the parsed integer outcomes. -/
structure TrialMatrix where
  trn : List String
  cols : List String
  cells : List (List Int)
deriving DecidableEq, Repr

/-- `SRE10.tst_keys`: read the `.keymask` trial file (external input
`fileRows`, one parsed row of `tst.length` integers per line) into a frame
with columns `tst`, attach the enrollment list as the `trn` column
(pandas raises `ValueError` when `trn.length` differs from the row count)
and make it the index.  Cell values are not inspected. -/
def tst_keys (trn tst : List String) (fileRows : List (List Int)) :
    Except PrismError TrialMatrix :=
  if fileRows.length = trn.length then
    .ok { trn := trn, cols := tst, cells := fileRows }
  else
    .error .lengthMismatch

/-- Filter chain of `Debug._get_trn_keys`: identical to the `SRE10` one
except that the last step keeps only the held-out `MIX10` database. -/
def Debug_trn_filter (gender : String) (keys0 : List KeyRow) : List KeyRow :=
  let keys1 := keys0.filter (fun r => decide (r.gender = gender))
  let keys2 := keys1.filter (fun r => decide (r.language = "ENG" ∨ r.language = "USE"))
  let keys3 := keys2.filter (fun r => decide (r.NOMINAL_LENGTH > 100))
  let keys4 := keys3.filter (fun r => decide (r.SPEECH_TYPE = "tel"))
  let keys5 := keys4.filter (fun r => decide (r.CHANNEL_TYPE = "phn"))
  let keys6 := keys5.filter (fun r => decide (¬ (r.VOCAL_EFFORT = "high" ∨ r.VOCAL_EFFORT = "low")))
  keys6.filter (fun r => decide (r.database = "MIX10"))

/-- `Debug._get_trn_keys`: the body computes `Debug_trn_filter` but has no
`return` statement, so the method returns `None`. -/
def Debug_get_trn_keys (gender : String) (keys : List KeyRow) :
    Option (List KeyRow) :=
  let _ := Debug_trn_filter gender keys
  none

/-- `Debug._get_tst_keys`: calls the parent method and slices the result,
but again has no `return` statement, so the method returns `None`. -/
def Debug_get_tst_keys (tstFile : List String) : Option (List String) :=
  let _ := tstFile.take 10
  none

/-- `Debug.__init__`: runs `SRE10.__init__(gender='f', condition=5)`, whose
first statements are `self.trn_keys_ = self._get_trn_keys()` (dynamically
dispatched to `Debug._get_trn_keys`, hence `None`) followed by
`self.trn_iter.__func__.n_items = self.trn_keys_.shape[0]`, which raises
`AttributeError` on `None`; construction never gets further. -/
def Debug_construct (_store : NItems) (keys : List KeyRow) :
    Except PrismError (SRE10State × NItems) :=
  match Debug_get_trn_keys "f" keys with
  | none => .error .attributeError
  | some trnKeys =>
      .ok ({ trn_keys_ := trnKeys
             dev_enroll_keys_ := []
             dev_test_keys_ := []
             tst_enroll_keys_ := []
             tst_test_keys_ := [] },
           { trn := trnKeys.length, devEnroll := 0, devTest := 0,
             tstEnroll := 0, tstTest := 0 })

/-- Loop of `Debug.trn_iter`: `for i, row in enumerate(...)` yields the
pair, then breaks once `i > 20` — so indices 0 through 21 are yielded. -/
def debugTrnAux (i : Nat) : List KeyRow → List (String × KeyRow)
  | [] => []
  | r :: rs =>
      (r.unique_name, r) :: (if i > 20 then [] else debugTrnAux (i + 1) rs)

/-- `Debug.trn_iter`: truncated iteration over the training table. -/
def Debug_trn_iter (trnKeys : List KeyRow) : List (String × KeyRow) :=
  debugTrnAux 0 trnKeys

/-- `Debug.dev_enroll_iter` / `Debug.dev_test_iter`: return an empty list,
so iterating them yields nothing. -/
def Debug_dev_iter : List (String × KeyRow) :=
  []

/-! Concrete records used by the evaluation witnesses below. -/

/-- Sample raw key-file record with a valid channel code. -/
def exRowA : Row :=
  { unique_name := "u1", database := "MIX05", target := "spk1", uri := "f1"
    channel := "a", SESSION_ID := "s1", gender := "f", YEAR_OF_BIRTH := 1970
    YEAR_OF_RECORDING := 2005, AGE := 35, SPEECH_TYPE := "tel"
    CHANNEL_TYPE := "phn", NOMINAL_LENGTH := 300, language := "ENG"
    NATIVE_LANGUAGE := "ENG", VOCAL_EFFORT := "normal" }

/-- Second sample record: same `unique_name` as `exRowA` but a different
`uri`, so the two records are non-identical yet share an identifier. -/
def exRowB : Row :=
  { exRowA with uri := "f2", channel := "b" }

/-- Key file mapping every database id to the two conflicting records. -/
def exFileDup : String → List Row :=
  fun _ => [exRowA, exRowB]

/-- Key file mapping every database id to one record, duplicated. -/
def exFileTwice : String → List Row :=
  fun _ => [exRowA]

/-! Properties of the full-row deduplication. -/

/-- Membership in `dedupSeen`: exactly the rows of the input not seen earlier. -/
theorem mem_dedupSeen (a : Row) (l : List Row) :
    ∀ seen, (a ∈ dedupSeen seen l ↔ a ∈ l ∧ a ∉ seen) := by
  induction l with
  | nil => intro seen; simp [dedupSeen]
  | cons r rs ih =>
    intro seen
    by_cases hr : r ∈ seen
    · rw [dedupSeen, if_pos hr, ih seen]
      constructor
      · rintro ⟨h1, h2⟩
        exact ⟨List.mem_cons_of_mem _ h1, h2⟩
      · rintro ⟨h1, h2⟩
        rcases List.mem_cons.1 h1 with h | h
        · subst h; exact absurd hr h2
        · exact ⟨h, h2⟩
    · rw [dedupSeen, if_neg hr, List.mem_cons]
      constructor
      · rintro (h | h)
        · subst h; exact ⟨List.mem_cons_self _ _, hr⟩
        · rw [ih] at h
          obtain ⟨h1, h2⟩ := h
          refine ⟨List.mem_cons_of_mem _ h1, fun hm => h2 (List.mem_cons_of_mem _ hm)⟩
      · rintro ⟨h1, h2⟩
        by_cases har : a = r
        · exact Or.inl har
        · rcases List.mem_cons.1 h1 with h | h
          · exact absurd h har
          · right
            rw [ih]
            refine ⟨h, fun hm => ?_⟩
            rcases List.mem_cons.1 hm with h' | h'
            · exact har h'
            · exact h2 h'

/-- `dedupSeen` only erases rows: the result is a sublist of the input. -/
theorem sublist_dedupSeen (l : List Row) : ∀ seen, List.Sublist (dedupSeen seen l) l := by
  induction l with
  | nil => intro seen; simp [dedupSeen]
  | cons r rs ih =>
    intro seen
    by_cases hr : r ∈ seen
    · rw [dedupSeen, if_pos hr]
      exact (ih seen).cons r
    · rw [dedupSeen, if_neg hr]
      exact (ih (r :: seen)).cons₂ r

/-- `dedupSeen` returns a duplicate-free list. -/
theorem nodup_dedupSeen (l : List Row) : ∀ seen, (dedupSeen seen l).Nodup := by
  induction l with
  | nil => intro seen; simp [dedupSeen]
  | cons r rs ih =>
    intro seen
    by_cases hr : r ∈ seen
    · rw [dedupSeen, if_pos hr]; exact ih seen
    · rw [dedupSeen, if_neg hr, List.nodup_cons]
      refine ⟨fun hmem => ?_, ih (r :: seen)⟩
      rw [mem_dedupSeen] at hmem
      exact hmem.2 (List.mem_cons_self r seen)

/-- Deduplication preserves membership. -/
theorem mem_dropDuplicates (a : Row) (l : List Row) :
    a ∈ dropDuplicates l ↔ a ∈ l := by
  rw [dropDuplicates, mem_dedupSeen]
  simp

/-- Membership in the concatenated key files. -/
theorem mem_concatKeys (r : Row) (f : String → List Row) :
    ∀ dbs : List String, (r ∈ concatKeys f dbs ↔ ∃ d ∈ dbs, r ∈ f d) := by
  intro dbs
  induction dbs with
  | nil => simp [concatKeys]
  | cons d ds ih => simp [concatKeys, List.mem_append, ih]

/-- C4: `read_keys` concatenates the per-database rows and removes exactly
the later full-field duplicates: the merged row list is a sublist of the
concatenation (source order preserved, first occurrences kept), it is
duplicate-free, it retains every input row, and each input row — in
particular each pair of fully identical source rows — occurs in it exactly
once. -/
theorem C4_dedup_keeps_first_occurrence (dbs : List String) (f : String → List Row) :
    List.Sublist (dropDuplicates (concatKeys f dbs)) (concatKeys f dbs) ∧
    (dropDuplicates (concatKeys f dbs)).Nodup ∧
    (∀ r : Row, r ∈ dropDuplicates (concatKeys f dbs) ↔ r ∈ concatKeys f dbs) ∧
    (∀ r : Row, r ∈ concatKeys f dbs →
      (dropDuplicates (concatKeys f dbs)).count r = 1) := by
  refine ⟨sublist_dedupSeen _ [], nodup_dedupSeen _ [], fun r => mem_dropDuplicates r _, ?_⟩
  intro r hr
  exact List.count_eq_one_of_mem (nodup_dedupSeen _ []) ((mem_dropDuplicates r _).2 hr)

/-- Witness for C4: the record `exRowA` appears in both key files of the
two-database input, and the merged table contains it exactly once. -/
theorem C4_dedup_keeps_first_occurrence_witness :
    exRowA ∈ concatKeys exFileTwice ["MIX05", "MIX06"] ∧
    (dropDuplicates (concatKeys exFileTwice ["MIX05", "MIX06"])).count exRowA = 1 :=
  ⟨by decide,
   (C4_dedup_keeps_first_occurrence ["MIX05", "MIX06"] exFileTwice).2.2.2 exRowA (by decide)⟩

/-! Properties of the channel translation. -/

/-- On a valid channel code, `translateRow` succeeds with the translated record. -/
theorem translateRow_ok (r : Row) (h : channelOk r.channel = true) :
    translateRow r = .ok (mkKeyRow r) := by
  simp only [channelOk, Bool.or_eq_true, decide_eq_true_eq] at h
  unfold translateRow translateChannel mkKeyRow channelNum
  rcases h with (h | h) | h <;> simp [h]

/-- On an invalid channel code, `translateRow` raises the dictionary `KeyError`. -/
theorem translateRow_error (r : Row) (h : channelOk r.channel = false) :
    translateRow r = .error (.unknownChannelCode r.channel) := by
  have h1 : ¬ r.channel = "a" := fun he => by simp [channelOk, he] at h
  have h2 : ¬ r.channel = "b" := fun he => by simp [channelOk, he] at h
  have h3 : ¬ r.channel = "x" := fun he => by simp [channelOk, he] at h
  unfold translateRow translateChannel
  simp [h1, h2, h3]

/-- Unfolding lemma: a failing first row fails the whole column translation. -/
theorem applyChannel_cons_error (r : Row) (rs : List Row) (e : PrismError)
    (h : translateRow r = .error e) : applyChannel (r :: rs) = .error e := by
  conv_lhs => rw [applyChannel]
  rw [h]

/-- Unfolding lemma: a translating first row prepends to the tail translation. -/
theorem applyChannel_cons_ok (r : Row) (rs : List Row) (kr : KeyRow)
    (h : translateRow r = .ok kr) :
    applyChannel (r :: rs) =
      match applyChannel rs with
      | .error e => .error e
      | .ok krs => .ok (kr :: krs) := by
  conv_lhs => rw [applyChannel]
  rw [h]

/-- When every row carries a valid channel code, the column translation
succeeds and is the row-wise map of the translation. -/
theorem applyChannel_ok_of_valid (l : List Row)
    (h : ∀ r ∈ l, channelOk r.channel = true) :
    applyChannel l = .ok (l.map mkKeyRow) := by
  induction l with
  | nil => rfl
  | cons r rs ih =>
    rw [applyChannel_cons_ok r rs _ (translateRow_ok r (h r (List.mem_cons_self r rs))),
      ih (fun s hs => h s (List.mem_cons_of_mem r hs))]
    rfl

/-- The column translation succeeds exactly when every row carries a valid
channel code. -/
theorem applyChannel_isOk_iff (l : List Row) :
    (applyChannel l).isOk = true ↔ ∀ r ∈ l, channelOk r.channel = true := by
  induction l with
  | nil => simp [applyChannel, Except.isOk, Except.toBool]
  | cons r rs ih =>
    cases hv : channelOk r.channel with
    | false =>
      rw [applyChannel_cons_error r rs _ (translateRow_error r hv)]
      constructor
      · intro h; cases h
      · intro h
        have h2 := h r (List.mem_cons_self r rs)
        rw [hv] at h2
        cases h2
    | true =>
      rw [applyChannel_cons_ok r rs _ (translateRow_ok r hv)]
      cases hrec : applyChannel rs with
      | error e =>
        rw [hrec] at ih
        constructor
        · intro h; cases h
        · intro h
          have h2 := ih.2 (fun s hs => h s (List.mem_cons_of_mem r hs))
          cases h2
      | ok krs =>
        rw [hrec] at ih
        constructor
        · intro _ s hs
          rcases List.mem_cons.1 hs with h | h
          · subst h; exact hv
          · exact (ih.1 rfl) s h
        · intro _; rfl

/-- A successful column translation is the row-wise map of the translation. -/
theorem applyChannel_ok_eq (l : List Row) (t : List KeyRow)
    (h : applyChannel l = .ok t) : t = l.map mkKeyRow := by
  have hvalid : ∀ r ∈ l, channelOk r.channel = true := by
    rw [← applyChannel_isOk_iff, h]
    rfl
  rw [applyChannel_ok_of_valid l hvalid] at h
  exact (Except.ok.inj h).symm

/-- On a valid channel code, `channelNum` lands in `{1, 2}`. -/
theorem channelNum_mem (c : String) (h : channelOk c = true) :
    channelNum c = 1 ∨ channelNum c = 2 := by
  simp only [channelOk, Bool.or_eq_true, decide_eq_true_eq] at h
  unfold channelNum
  rcases h with (h | h) | h <;> simp [h]

/-- C3: every record of a successfully loaded key table has channel 1 or 2;
the translation dictionary maps the codes a, b, x to 1, 2, 1 respectively
and raises `unknownChannelCode` on every other code; and a single row with
an unmapped code anywhere in the concatenated input makes `read_keys` fail
instead of returning a table. -/
theorem C3_channel_normalization (dbs : List String) (f : String → List Row) :
    (∀ t, read_keys dbs f = .ok t → ∀ kr ∈ t, kr.channel = 1 ∨ kr.channel = 2) ∧
    (translateChannel "a" = .ok 1 ∧ translateChannel "b" = .ok 2 ∧
      translateChannel "x" = .ok 1) ∧
    (∀ c : String, ¬ c = "a" → ¬ c = "b" → ¬ c = "x" →
      translateChannel c = .error (.unknownChannelCode c)) ∧
    ((∃ r ∈ concatKeys f dbs, channelOk r.channel = false) →
      (read_keys dbs f).isOk = false) := by
  refine ⟨?_, ⟨rfl, rfl, rfl⟩, ?_, ?_⟩
  · intro t ht kr hkr
    have heq := applyChannel_ok_eq _ _ ht
    subst heq
    obtain ⟨r, hr, hmk⟩ := List.mem_map.1 hkr
    have hisok : (applyChannel (dropDuplicates (concatKeys f dbs))).isOk = true := by
      rw [show applyChannel (dropDuplicates (concatKeys f dbs)) = read_keys dbs f from rfl, ht]
      rfl
    have hvalid := (applyChannel_isOk_iff (dropDuplicates (concatKeys f dbs))).1 hisok r hr
    rw [← hmk]
    exact channelNum_mem r.channel hvalid
  · intro c h1 h2 h3
    unfold translateChannel
    simp [h1, h2, h3]
  · rintro ⟨r, hr, hbad⟩
    cases hok : (read_keys dbs f).isOk with
    | false => rfl
    | true =>
      exfalso
      have hall := (applyChannel_isOk_iff (dropDuplicates (concatKeys f dbs))).1 hok
      have hvalid := hall r ((mem_dropDuplicates r _).2 hr)
      rw [hbad] at hvalid
      cases hvalid

/-- Sample record with an unmapped channel code. -/
def exRowBad : Row :=
  { exRowA with uri := "f3", channel := "z" }

/-- Key file containing a record with an unmapped channel code. -/
def exFileBad : String → List Row :=
  fun _ => [exRowBad]

/-- Witness for C3: at a concrete table the loaded channels are in `{1, 2}`,
the unmapped code z raises, and a file with code z makes loading fail. -/
theorem C3_channel_normalization_witness :
    ((mkKeyRow exRowA).channel = 1 ∨ (mkKeyRow exRowA).channel = 2) ∧
    translateChannel "z" = .error (.unknownChannelCode "z") ∧
    (read_keys ["MIX05"] exFileBad).isOk = false :=
  ⟨(C3_channel_normalization ["MIX05"] exFileDup).1
      [mkKeyRow exRowA, mkKeyRow exRowB] (by rfl) (mkKeyRow exRowA) (by decide),
   (C3_channel_normalization ["MIX05"] exFileDup).2.2.1 "z"
      (by decide) (by decide) (by decide),
   (C3_channel_normalization ["MIX05"] exFileBad).2.2.2
      ⟨exRowBad, by decide, by decide⟩⟩

/-- Counterexample for C2: the key files of the single database hold two
non-identical rows sharing the identifier u1, yet `read_keys` returns a
table (holding both rows) instead of failing — `set_index` never checks
identifier uniqueness. -/
theorem C2_counterexample_no_failure :
    exRowA.unique_name = exRowB.unique_name ∧ exRowA ≠ exRowB ∧
    dropDuplicates (concatKeys exFileDup ["MIX05"]) = [exRowA, exRowB] ∧
    read_keys ["MIX05"] exFileDup = .ok [mkKeyRow exRowA, mkKeyRow exRowB] :=
  ⟨rfl, by decide, by rfl, by rfl⟩

/-- C2 amended: loading never checks identifier uniqueness.  Whenever every
channel code is valid, `read_keys` returns a table, and every input row —
in particular each of two non-identical rows sharing a `unique_name` —
appears in it after translation; the ambiguity is kept silently. -/
theorem C2_amended_no_duplicate_identifier_check (dbs : List String)
    (f : String → List Row)
    (h : ∀ r ∈ concatKeys f dbs, channelOk r.channel = true) :
    ∃ t, read_keys dbs f = .ok t ∧
      ∀ r ∈ concatKeys f dbs, mkKeyRow r ∈ t := by
  refine ⟨(dropDuplicates (concatKeys f dbs)).map mkKeyRow, ?_, ?_⟩
  · exact applyChannel_ok_of_valid _
      (fun r hr => h r ((mem_dropDuplicates r _).1 hr))
  · intro r hr
    exact List.mem_map_of_mem _ ((mem_dropDuplicates r _).2 hr)

/-- Witness for the amended C2: on the concrete conflicting key file the
load succeeds and both conflicting rows are in the returned table. -/
theorem C2_amended_no_duplicate_identifier_check_witness :
    ∃ t, read_keys ["MIX05"] exFileDup = .ok t ∧
      ∀ r ∈ concatKeys exFileDup ["MIX05"], mkKeyRow r ∈ t :=
  C2_amended_no_duplicate_identifier_check ["MIX05"] exFileDup (by decide)

/-- C5: permuting the ordered database-id sequence given to `read_keys`
does not change the outcome: loading succeeds for one order exactly when
it succeeds for the other, and the two successfully returned tables hold
the same set of records. -/
theorem C5_database_order_irrelevant (dbs dbsP : List String)
    (f : String → List Row) (h : dbs.Perm dbsP) :
    ((read_keys dbs f).isOk = (read_keys dbsP f).isOk) ∧
    (∀ t tP, read_keys dbs f = .ok t → read_keys dbsP f = .ok tP →
      ∀ kr : KeyRow, kr ∈ t ↔ kr ∈ tP) := by
  have hmem : ∀ r : Row, r ∈ concatKeys f dbs ↔ r ∈ concatKeys f dbsP := by
    intro r
    rw [mem_concatKeys, mem_concatKeys]
    constructor
    · rintro ⟨d, hd, hr⟩; exact ⟨d, h.mem_iff.1 hd, hr⟩
    · rintro ⟨d, hd, hr⟩; exact ⟨d, h.mem_iff.2 hd, hr⟩
  constructor
  · rw [Bool.eq_iff_iff]
    show (applyChannel (dropDuplicates (concatKeys f dbs))).isOk = true ↔
      (applyChannel (dropDuplicates (concatKeys f dbsP))).isOk = true
    rw [applyChannel_isOk_iff, applyChannel_isOk_iff]
    constructor
    · intro hall r hr
      exact hall r ((mem_dropDuplicates r _).2
        ((hmem r).2 ((mem_dropDuplicates r _).1 hr)))
    · intro hall r hr
      exact hall r ((mem_dropDuplicates r _).2
        ((hmem r).1 ((mem_dropDuplicates r _).1 hr)))
  · intro t tP ht htP kr
    have heq := applyChannel_ok_eq _ _ ht
    have heqP := applyChannel_ok_eq _ _ htP
    subst heq
    subst heqP
    rw [List.mem_map, List.mem_map]
    constructor
    · rintro ⟨r, hr, hmk⟩
      exact ⟨r, (mem_dropDuplicates r _).2 ((hmem r).1 ((mem_dropDuplicates r _).1 hr)), hmk⟩
    · rintro ⟨r, hr, hmk⟩
      exact ⟨r, (mem_dropDuplicates r _).2 ((hmem r).2 ((mem_dropDuplicates r _).1 hr)), hmk⟩

/-- Witness for C5: swapping two concrete database ids leaves the load
outcome unchanged and the returned record unchanged in the table. -/
theorem C5_database_order_irrelevant_witness :
    ((read_keys ["MIX05", "MIX06"] exFileTwice).isOk =
      (read_keys ["MIX06", "MIX05"] exFileTwice).isOk) ∧
    (mkKeyRow exRowA ∈ [mkKeyRow exRowA] ↔ mkKeyRow exRowA ∈ [mkKeyRow exRowA]) :=
  ⟨(C5_database_order_irrelevant ["MIX05", "MIX06"] ["MIX06", "MIX05"]
      exFileTwice (List.Perm.swap "MIX06" "MIX05" [])).1,
   (C5_database_order_irrelevant ["MIX05", "MIX06"] ["MIX06", "MIX05"]
      exFileTwice (List.Perm.swap "MIX06" "MIX05" [])).2
      [mkKeyRow exRowA] [mkKeyRow exRowA] (by rfl) (by rfl) (mkKeyRow exRowA)⟩

/-- C1: every record yielded by the train partition of a (non-debug) SRE10
protocol satisfies all seven conjunctive training-pool predicates: gender
matches, language is ENG or USE, nominal length exceeds 100, speech type
is tel, channel type is phn, vocal effort is neither high nor low, and the
database is not the held-out MIX10. -/
theorem C1_training_pool_predicates (gender : String) (keys : List KeyRow)
    (p : String × KeyRow) (hp : p ∈ trn_iter (SRE10_get_trn_keys gender keys)) :
    p.2.gender = gender ∧
    (p.2.language = "ENG" ∨ p.2.language = "USE") ∧
    p.2.NOMINAL_LENGTH > 100 ∧
    p.2.SPEECH_TYPE = "tel" ∧
    p.2.CHANNEL_TYPE = "phn" ∧
    ¬ (p.2.VOCAL_EFFORT = "high" ∨ p.2.VOCAL_EFFORT = "low") ∧
    ¬ p.2.database = "MIX10" := by
  obtain ⟨r, hr, hmk⟩ := List.mem_map.1 hp
  subst hmk
  simp only [SRE10_get_trn_keys, List.mem_filter, decide_eq_true_eq] at hr
  obtain ⟨⟨⟨⟨⟨⟨⟨_, h1⟩, h2⟩, h3⟩, h4⟩, h5⟩, h6⟩, h7⟩ := hr
  exact ⟨h1, h2, h3, h4, h5, h6, h7⟩

/-- Witness for C1: the concrete record u1 is yielded by the train
partition and indeed carries the requested gender. -/
theorem C1_training_pool_predicates_witness :
    ("u1", mkKeyRow exRowA) ∈ trn_iter (SRE10_get_trn_keys "f" [mkKeyRow exRowA]) ∧
    (mkKeyRow exRowA).gender = "f" :=
  ⟨by decide,
   (C1_training_pool_predicates "f" [mkKeyRow exRowA]
      ("u1", mkKeyRow exRowA) (by decide)).1⟩

/-! Behaviour of the lookup-based partition iterators. -/

/-- When every identifier of the list is present in the key table, the
lookup iteration succeeds and yields, in list order, each identifier with
the record found for it. -/
theorem lookup_iter_ok_of_present (keys : List KeyRow) (ids : List String)
    (h : ∀ n ∈ ids, (locate keys n).isSome = true) :
    lookup_iter keys ids =
      .ok (ids.map (fun n => (n, (locate keys n).getD default))) := by
  induction ids with
  | nil => rfl
  | cons n ns ih =>
    have hn := h n (List.mem_cons_self n ns)
    obtain ⟨r, hr⟩ := Option.isSome_iff_exists.1 hn
    have htail := ih (fun m hm => h m (List.mem_cons_of_mem n hm))
    simp only [lookup_iter, hr, htail, List.map_cons]
    rfl

/-- When some identifier of the list is absent from the key table, the
lookup iteration raises `unknownIdentifier` for an identifier of the list. -/
theorem lookup_iter_error_of_absent (keys : List KeyRow) (ids : List String)
    (h : ∃ n ∈ ids, locate keys n = none) :
    ∃ m ∈ ids, lookup_iter keys ids = .error (.unknownIdentifier m) := by
  induction ids with
  | nil =>
    obtain ⟨n, hn, _⟩ := h
    cases hn
  | cons n ns ih =>
    cases hl : locate keys n with
    | none =>
      refine ⟨n, List.mem_cons_self n ns, ?_⟩
      simp only [lookup_iter, hl]
    | some r =>
      obtain ⟨m, hm, hml⟩ := h
      rcases List.mem_cons.1 hm with he | he
      · subst he
        rw [hml] at hl
        cases hl
      · obtain ⟨m2, hm2, herr⟩ := ih ⟨m, he, hml⟩
        refine ⟨m2, List.mem_cons_of_mem n hm2, ?_⟩
        simp only [lookup_iter, hl, herr]

/-- C9: evaluation-partition iteration resolves every identifier of the
loaded list in the key table and yields its record; when all identifiers
resolve the produced sequence is exactly the identifier list paired with
the located records, and when some identifier is absent the iteration
fails with `unknownIdentifier` rather than skipping or substituting. -/
theorem C9_eval_iteration_faithful_lookup (keys : List KeyRow) (ids : List String) :
    ((∀ n ∈ ids, (locate keys n).isSome = true) →
      lookup_iter keys ids =
        .ok (ids.map (fun n => (n, (locate keys n).getD default)))) ∧
    ((∃ n ∈ ids, locate keys n = none) →
      ∃ m ∈ ids, lookup_iter keys ids = .error (.unknownIdentifier m)) :=
  ⟨lookup_iter_ok_of_present keys ids, lookup_iter_error_of_absent keys ids⟩

/-- Witness for C9: on the concrete table, iterating the list with the one
present identifier yields its record, and iterating a list containing the
absent identifier u9 fails. -/
theorem C9_eval_iteration_faithful_lookup_witness :
    lookup_iter [mkKeyRow exRowA] ["u1"] = .ok [("u1", mkKeyRow exRowA)] ∧
    ∃ m ∈ ["u9"], lookup_iter [mkKeyRow exRowA] ["u9"] =
      .error (.unknownIdentifier m) :=
  ⟨by
    have h := (C9_eval_iteration_faithful_lookup [mkKeyRow exRowA] ["u1"]).1
      (by decide)
    simpa using h,
   (C9_eval_iteration_faithful_lookup [mkKeyRow exRowA] ["u9"]).2
    ⟨"u9", by decide, by decide⟩⟩

/-- C7: for each of the five partitions of a constructed SRE10 protocol
instance, the `n_items` count declared at construction equals the number
of (identifier, record) pairs produced by iterating that partition to
exhaustion, given that every evaluation identifier resolves in the key
table (an unresolvable identifier instead aborts iteration, claim C9). -/
theorem C7_declared_counts_match_iteration (store : NItems) (keys : List KeyRow)
    (gender : String) (eFile tFile : List String)
    (hE : ∀ n ∈ eFile, (locate keys n).isSome = true)
    (hT : ∀ n ∈ tFile, (locate keys n).isSome = true) :
    (trn_iter (SRE10_construct store keys gender eFile tFile).1.trn_keys_).length =
      (SRE10_construct store keys gender eFile tFile).2.trn ∧
    (∃ l, lookup_iter keys
        (SRE10_construct store keys gender eFile tFile).1.dev_enroll_keys_ = .ok l ∧
      l.length = (SRE10_construct store keys gender eFile tFile).2.devEnroll) ∧
    (∃ l, lookup_iter keys
        (SRE10_construct store keys gender eFile tFile).1.dev_test_keys_ = .ok l ∧
      l.length = (SRE10_construct store keys gender eFile tFile).2.devTest) ∧
    (∃ l, lookup_iter keys
        (SRE10_construct store keys gender eFile tFile).1.tst_enroll_keys_ = .ok l ∧
      l.length = (SRE10_construct store keys gender eFile tFile).2.tstEnroll) ∧
    (∃ l, lookup_iter keys
        (SRE10_construct store keys gender eFile tFile).1.tst_test_keys_ = .ok l ∧
      l.length = (SRE10_construct store keys gender eFile tFile).2.tstTest) := by
  refine ⟨?_, ⟨[], rfl, rfl⟩, ⟨[], rfl, rfl⟩, ?_, ?_⟩
  · simp [trn_iter, SRE10_construct]
  · exact ⟨_, lookup_iter_ok_of_present keys eFile hE, by simp [SRE10_construct]⟩
  · exact ⟨_, lookup_iter_ok_of_present keys tFile hT, by simp [SRE10_construct]⟩

/-- Witness for C7: on a concrete one-record table, the train partition's
declared count matches what iterating it produces. -/
theorem C7_declared_counts_match_iteration_witness :
    (trn_iter (SRE10_construct ⟨0, 0, 0, 0, 0⟩ [mkKeyRow exRowA] "f"
        ["u1"] ["u1"]).1.trn_keys_).length =
      (SRE10_construct ⟨0, 0, 0, 0, 0⟩ [mkKeyRow exRowA] "f" ["u1"] ["u1"]).2.trn :=
  (C7_declared_counts_match_iteration ⟨0, 0, 0, 0, 0⟩ [mkKeyRow exRowA] "f"
    ["u1"] ["u1"] (by decide) (by decide)).1

/-- Partition lengths that `SRE10.__init__` writes into the class store for
a given key table, gender and pair of identifier-list files. -/
def partitionCounts (keys : List KeyRow) (gender : String)
    (eFile tFile : List String) : NItems :=
  { trn := (SRE10_get_trn_keys gender keys).length
    devEnroll := 0
    devTest := 0
    tstEnroll := eFile.length
    tstTest := tFile.length }

/-- C10: the `n_items` attributes are stored through `__func__` on the
class-level function objects shared by all instances: after constructing a
second instance of the class, the counts observed through the first
instance are the second construction's partition lengths, and are not the
first's own lengths whenever the two length tuples differ. -/
theorem C10_n_items_stored_on_class (store : NItems)
    (keys1 : List KeyRow) (g1 : String) (e1 t1 : List String)
    (keys2 : List KeyRow) (g2 : String) (e2 t2 : List String) :
    observed_n_items
        (SRE10_construct (SRE10_construct store keys1 g1 e1 t1).2 keys2 g2 e2 t2).2
        (SRE10_construct store keys1 g1 e1 t1).1 =
      partitionCounts keys2 g2 e2 t2 ∧
    (partitionCounts keys1 g1 e1 t1 ≠ partitionCounts keys2 g2 e2 t2 →
      observed_n_items
          (SRE10_construct (SRE10_construct store keys1 g1 e1 t1).2 keys2 g2 e2 t2).2
          (SRE10_construct store keys1 g1 e1 t1).1 ≠
        partitionCounts keys1 g1 e1 t1) := by
  constructor
  · rfl
  · intro hne heq
    exact hne heq.symm

/-- Witness for C10: constructing a second instance over a one-record table
after a first instance over the empty table, the first instance's observed
counts are the second's lengths and differ from its own. -/
theorem C10_n_items_stored_on_class_witness :
    observed_n_items
        (SRE10_construct (SRE10_construct ⟨9, 9, 9, 9, 9⟩ [] "f" [] []).2
          [mkKeyRow exRowA] "f" ["u1"] ["u1"]).2
        (SRE10_construct ⟨9, 9, 9, 9, 9⟩ [] "f" [] []).1 ≠
      partitionCounts [] "f" [] [] :=
  (C10_n_items_stored_on_class ⟨9, 9, 9, 9, 9⟩ [] "f" [] []
    [mkKeyRow exRowA] "f" ["u1"] ["u1"]).2 (by decide)

/-- Counterexample for C6: a trial file whose single cell is 2 — outside
`{-1, 0, 1}` — loads successfully into a matrix instead of failing:
`tst_keys` never inspects cell values. -/
theorem C6_counterexample_cells_not_validated :
    tst_keys ["e1"] ["t1"] [[2]] =
      .ok { trn := ["e1"], cols := ["t1"], cells := [[2]] } ∧
    ¬ ((2 : Int) = -1 ∨ (2 : Int) = 0 ∨ (2 : Int) = 1) :=
  ⟨by rfl, by decide⟩

/-- C6 amended: the loaded trial matrix has exactly the K test identifiers
as columns and the N enrollment identifiers as rows, and loading fails when
the file's row count differs from the enrollment list length; but cell
values are not validated — the parsed integers are returned unchanged,
whether or not they lie in `{-1, 0, 1}`. -/
theorem C6_amended_shape_checked_cells_not (trn tst : List String)
    (rows : List (List Int)) :
    (rows.length = trn.length →
      ∃ m : TrialMatrix, tst_keys trn tst rows = .ok m ∧
        m.cols = tst ∧ m.trn = trn ∧ m.cells = rows) ∧
    (¬ rows.length = trn.length →
      tst_keys trn tst rows = .error .lengthMismatch) := by
  constructor
  · intro h
    refine ⟨{ trn := trn, cols := tst, cells := rows }, ?_, rfl, rfl, rfl⟩
    unfold tst_keys
    rw [if_pos h]
  · intro h
    unfold tst_keys
    rw [if_neg h]

/-- Witness for the amended C6: a one-cell file loads with the declared
shape, and an empty file against a one-identifier enrollment list fails. -/
theorem C6_amended_shape_checked_cells_not_witness :
    (∃ m : TrialMatrix, tst_keys ["e1"] ["t1"] [[0]] = .ok m ∧
      m.cols = ["t1"] ∧ m.trn = ["e1"] ∧ m.cells = [[0]]) ∧
    tst_keys ["e1"] ["t1"] [] = .error .lengthMismatch :=
  ⟨(C6_amended_shape_checked_cells_not ["e1"] ["t1"] [[0]]).1 (by decide),
   (C6_amended_shape_checked_cells_not ["e1"] ["t1"] []).2 (by decide)⟩

/-- C8 (code bug): `Debug` construction always raises — `Debug._get_trn_keys`
computes its filter chain but falls off the end without `return`, so
`trn_keys_` is `None` and `SRE10.__init__` crashes reading `.shape` on it;
`Debug._get_tst_keys` likewise returns `None`, so the evaluation iterators
cannot run either.  Moreover the train-loop truncation, taken in
isolation, yields up to 22 items (the break fires only after yielding
index 21), not at most 21; only the dev partitions behave as claimed,
yielding zero items. -/
theorem C8_debug_protocol_broken :
    (∀ store : NItems, ∀ keys : List KeyRow,
      Debug_construct store keys = .error .attributeError) ∧
    (∀ l : List String, Debug_get_tst_keys l = none) ∧
    (Debug_trn_iter (List.replicate 30 (mkKeyRow exRowA))).length = 22 ∧
    Debug_dev_iter = [] :=
  ⟨fun _ _ => rfl, fun _ => rfl, by rfl, rfl⟩

end Prism
